import Mathlib

/-!
Shallow embedding of `htbuilder` (file `src/htbuilder/__init__.py`), a tiny
HTML string builder, together with proofs about its element model and
serialization pipeline.

Modelling conventions:
* Python strings are Lean `String`s; `str.lower()` is modelled for the ASCII
  fragment (`pyLower`), which covers every tag and key in the claims.
* Python exceptions are `Except String` results; the message strings mirror
  the source's messages.
* Python dicts (attribute maps) are insertion-ordered association lists
  without duplicate keys, updated by `dictInsert` / merged by `dictMerge`
  exactly as `{**a, **b}` behaves on such dicts.
* `None`, `False`, `True` are singleton objects in Python, so the source's
  identity tests (`c is not uc`, `v is not None`, ...) coincide with matching
  on the corresponding constructors, which are disjoint from `int` and `str`
  values just as `bool`/`NoneType` are disjoint types from `int`/`str` at the
  level of object identity (CPython never interns `0` as `False`).
-/

namespace Htbuilder

/-- EMPTY_ELEMENTS from the source: the fixed set of void HTML tags and
self-closing SVG primitives. Python set membership on strings is string
equality, so a Lean list with `contains` is a faithful model. -/
def EMPTY_ELEMENTS : List String :=
  ["area", "base", "br", "col", "embed", "hr", "img", "input", "keygen",
   "link", "meta", "param", "source", "track", "wbr",
   "circle", "line", "path", "polygon", "polyline", "rect"]

/-- Attribute values: the Python values the claims exercise as attribute
values (strings, ints, the two bools, `None`). -/
inductive AttrVal where
  | str (s : String)
  | int (n : Int)
  | bool (b : Bool)
  | none

/-- Child nodes after flattening: atomic Python values that can sit in an
element's `_children` list. `elem` carries the four fields of `HtmlElement`
(`_tag` as stored, i.e. already lowercased; `_attrs`; `_children`;
`_is_empty`). -/
inductive Node where
  | str (s : String)
  | int (n : Int)
  | bool (b : Bool)
  | pyNone
  | elem (tag : String) (attrs : List (String × AttrVal)) (children : List Node)
      (is_empty : Bool)

/-- Raw call arguments before flattening: either an atomic value or an
ordered collection (Python list/tuple/generator/range all iterate the same
way, so one `seqA` constructor models them for `collapse`; where `str()` of
the collection itself matters — only in `fragment` — `seqA` is read as a
Python *list*). -/
inductive Arg where
  | nodeA (n : Node)
  | seqA (xs : List Arg)

mutual
/-- Walk of `more_itertools.collapse`: a string is yielded atomically by the
`isinstance(node, (str, bytes))` test before any iteration is attempted; a
non-iterable value is yielded when `iter(node)` raises `TypeError`; an
ordered collection is recursed into, left to right. -/
def walk : Arg → List Node
  | .nodeA (.str s) => [.str s]
  | .nodeA n => [n]
  | .seqA xs => walkList xs

/-- Walks each member of an iterated collection in order and concatenates
the results (the `for child in tree: yield from walk(child, ...)` loop). -/
def walkList : List Arg → List Node
  | [] => []
  | a :: rest => walk a ++ walkList rest
end

/-- Models `list(collapse(xs))`: the top-level list is itself iterable, so
`collapse` walks straight into its members. -/
def collapse (xs : List Arg) : List Node := walkList xs

/-- ASCII fragment of Python `str.lower()`. -/
def pyLowerChar (c : Char) : Char :=
  if 'A' ≤ c ∧ c ≤ 'Z' then Char.ofNat (c.toNat + 32) else c

/-- Models `tag.lower()` character by character. -/
def pyLower (s : String) : String := String.mk (s.data.map pyLowerChar)

/-- Models `k.startswith("_")`: false on the empty string, otherwise a test
of the first character. -/
def startsUnd (k : String) : Bool :=
  match k.data with
  | [] => false
  | c :: _ => c = '_'

/-- Models `k.rstrip("_")`: strips every trailing underscore. -/
def rstripUnd (s : String) : String :=
  String.mk ((s.data.reverse.dropWhile (fun c => c = '_')).reverse)

/-- Models `.replace("_", "-")`; the pattern is a single character, so the
replacement is a character map. -/
def dashUnd (s : String) : String :=
  String.mk (s.data.map (fun c => if c = '_' then '-' else c))

/-- Message of the `ValueError` raised by `_clean_name`. -/
def underscoreMsg : String :=
  "Underscore prefix for reserved words not supported, use suffix instead."

/-- Models `_clean_name`: reject a leading underscore with a `ValueError`,
else strip all trailing underscores and turn the remaining underscores into
dashes. -/
def cleanName (k : String) : Except String String :=
  if startsUnd k then Except.error underscoreMsg
  else Except.ok (dashUnd (rstripUnd k))

/-- Models `str(v)` as the f-string in `_serialize_attrs` interpolates an
attribute value. -/
def pyStrAttr : AttrVal → String
  | .str s => s
  | .int n => toString n
  | .bool b => if b then "True" else "False"
  | .none => "None"

/-- Models the list comprehension inside `_serialize_attrs`: entries whose
value *is* `None` or `False` are filtered out before `_clean_name` ever runs
on their key; `True` yields the bare cleaned key; anything else yields
`key="value"`. The first `ValueError` from `_clean_name` propagates, in
iteration order. -/
def serializeAttrsList : List (String × AttrVal) → Except String (List String)
  | [] => Except.ok []
  | (k, v) :: rest =>
    match v with
    | .none => serializeAttrsList rest
    | .bool false => serializeAttrsList rest
    | _ =>
      match cleanName k with
      | .error m => Except.error m
      | .ok ck =>
        match serializeAttrsList rest with
        | .error m => Except.error m
        | .ok ts =>
          Except.ok ((match v with
            | .bool true => ck
            | _ => ck ++ "=\"" ++ pyStrAttr v ++ "\"") :: ts)

/-- Models `_serialize_attrs`: the space-join of the comprehension above. -/
def serializeAttrs (attrs : List (String × AttrVal)) : Except String String :=
  match serializeAttrsList attrs with
  | .error m => Except.error m
  | .ok ts => Except.ok (String.intercalate " " ts)

/-- Models `all(c is not uc for uc in VOIDED_CHILDREN)` negated: a child is
voided exactly when it is the `None`, `False` or `True` singleton. -/
def isVoided : Node → Bool
  | .pyNone => true
  | .bool _ => true
  | _ => false

/-- Models `_get_html_template` composed with the `%` substitution in
`__str__`: the void/non-void template choice, where the attrs segment and
its separating space appear whenever the attribute dict is non-empty
(`if self._attrs` tests dict truthiness, not the serialized string). -/
def htmlTemplate (isEmptyTag hasAttrs : Bool) (tag attrsStr childrenStr : String) :
    String :=
  if isEmptyTag then
    if hasAttrs then "<" ++ tag ++ " " ++ attrsStr ++ "/>"
    else "<" ++ tag ++ "/>"
  else
    if hasAttrs then
      "<" ++ tag ++ " " ++ attrsStr ++ ">" ++ childrenStr ++ "</" ++ tag ++ ">"
    else "<" ++ tag ++ ">" ++ childrenStr ++ "</" ++ tag ++ ">"

mutual
/-- Models `str(c)` on a child value: pass-through / standard conversion for
atoms, `HtmlElement.__str__` for elements. In `__str__` the substitution
dict evaluates `_clean_name(_tag)`, then `_serialize_attrs(_attrs)`, then
`_render_children(_children)` — so the first `ValueError` in that order
propagates, and all three are computed even when the void template uses no
children — and finally the stored (lowercased) `_tag` being exactly
`"html"` prepends the doctype to the formatted markup. -/
def strOfNode : Node → Except String String
  | .str s => Except.ok s
  | .int n => Except.ok (toString n)
  | .bool b => Except.ok (if b then "True" else "False")
  | .pyNone => Except.ok "None"
  | .elem t a c ie =>
    match cleanName t with
    | .error m => Except.error m
    | .ok ct =>
      match serializeAttrs a with
      | .error m => Except.error m
      | .ok astr =>
        match renderChildren c with
        | .error m => Except.error m
        | .ok cstr =>
          Except.ok (if t = "html" then
            "<!DOCTYPE html>" ++ htmlTemplate ie (!a.isEmpty) ct astr cstr
          else htmlTemplate ie (!a.isEmpty) ct astr cstr)

/-- Models `_render_children` on a collapsed children list: skip the voided
placeholders, `str` the rest and concatenate in order (the `"".join` of the
comprehension, first exception first). -/
def renderChildren : List Node → Except String String
  | [] => Except.ok ""
  | c :: rest =>
    if isVoided c then renderChildren rest
    else
      match strOfNode c with
      | .error m => Except.error m
      | .ok s =>
        match renderChildren rest with
        | .error m => Except.error m
        | .ok r => Except.ok (s ++ r)
end

/-- The `html` local variable of `HtmlElement.__str__`: the element's markup
before the doctype special case is applied. -/
def elemBase (t : String) (a : List (String × AttrVal)) (c : List Node)
    (ie : Bool) : Except String String :=
  match cleanName t with
  | .error m => Except.error m
  | .ok ct =>
    match serializeAttrs a with
    | .error m => Except.error m
    | .ok astr =>
      match renderChildren c with
      | .error m => Except.error m
      | .ok cstr => Except.ok (htmlTemplate ie (!a.isEmpty) ct astr cstr)

/-- Functional view of an `HtmlElement`'s state: the four instance fields.
`tag` holds `_tag` (already lowercased), `is_empty` holds `_is_empty`. This
view is adequate wherever attribute-dict *identity* plays no role; identity
(the shared mutable default argument) is modelled separately below. -/
structure HtmlElement where
  tag : String
  attrs : List (String × AttrVal)
  children : List Node
  is_empty : Bool

/-- Embeds an element state back into a child `Node`. -/
def toNode (e : HtmlElement) : Node := .elem e.tag e.attrs e.children e.is_empty

/-- Models Python `d[k] = v` on an insertion-ordered dict rendered as an
association list: overwrite in place if the key exists, else append. -/
def dictInsert (d : List (String × AttrVal)) (k : String) (v : AttrVal) :
    List (String × AttrVal) :=
  if d.any (fun p => p.1 = k) then
    d.map (fun p => if p.1 = k then (k, v) else p)
  else d ++ [(k, v)]

/-- Models `{**a, **b}` on insertion-ordered dicts: keys of `a` first (values
overridden by `b` where both have the key), then `b`'s new keys in `b`'s
order. -/
def dictMerge (a b : List (String × AttrVal)) : List (String × AttrVal) :=
  b.foldl (fun d p => dictInsert d p.1 p.2) a

/-- Models `HtmlElement.__init__(tag)` as the factory calls it (no explicit
attrs/children): `_tag = tag.lower()`, empty attrs and children, and
`_is_empty = tag in EMPTY_ELEMENTS` — note the membership test uses the RAW
`tag`, not the lowercased `_tag`. -/
def initElem (tag : String) : HtmlElement :=
  { tag := pyLower tag, attrs := [], children := [],
    is_empty := EMPTY_ELEMENTS.contains tag }

/-- Message of the `TypeError` raised when a void element is given
children. -/
def voidMsg (tag : String) : String := "<" ++ tag ++ "> cannot have children"

/-- Message of the `ValueError` raised by `HtmlTag.__call__`. -/
def bothMsg : String := "Accept args or kwargs in element, but not both."

/-- Models the `if attrs:` block of `HtmlElement.__call__`: a non-empty
kwargs dict is merged over the current attrs (rebinding `_attrs` to a fresh
dict). -/
def applyAttrs (e : HtmlElement) (attrs : List (String × AttrVal)) : HtmlElement :=
  if attrs.isEmpty then e else { e with attrs := dictMerge e.attrs attrs }

/-- Models `HtmlElement.__call__` with the element state threaded through:
the result component is the raised exception (if any), the state component
is the element's state when control leaves the method. The void-element
`TypeError` is raised before either assignment statement runs, so the state
at that point is still the input state. -/
def elemCallSt (e : HtmlElement) (children : List Arg)
    (attrs : List (String × AttrVal)) : Except String Unit × HtmlElement :=
  if children.isEmpty then (Except.ok (), applyAttrs e attrs)
  else if e.is_empty then (Except.error (voidMsg e.tag), e)
  else
    (Except.ok (),
      applyAttrs
        { e with children := collapse (e.children.map Arg.nodeA ++ children) }
        attrs)

/-- Result view of `HtmlElement.__call__` (the method returns `self`). -/
def elemCall (e : HtmlElement) (children : List Arg)
    (attrs : List (String × AttrVal)) : Except String HtmlElement :=
  match elemCallSt e children attrs with
  | (.ok _, e') => Except.ok e'
  | (.error m, _) => Except.error m

/-- Models `HtmlTag.__call__` (and hence `div(...)`-style first calls): both
args and kwargs non-empty raises `ValueError` before any element is created;
otherwise a fresh element is created and called. -/
def tagCall (tag : String) (children : List Arg)
    (attrs : List (String × AttrVal)) : Except String HtmlElement :=
  if ¬ children.isEmpty ∧ ¬ attrs.isEmpty then Except.error bothMsg
  else elemCall (initElem tag) children attrs

mutual
/-- Models CPython `repr` on the values that can appear inside a sequence
passed to `fragment`, for the deterministic cases: a string without quotes,
backslashes or control characters reprs as itself in single quotes; ints,
bools and `None` repr as their `str`; a list reprs as the bracketed
comma-join of its members' reprs. The address-dependent default
`object.__repr__` of `HtmlElement`, and string reprs that need escaping, are
outside the model and yield an error marker (no theorem touches them). -/
def pyReprArgV : Arg → Except String String
  | .nodeA (.str s) =>
    if s.data.any (fun ch => ch = '\'' ∨ ch = '\\' ∨ ch.toNat < 32) then
      Except.error "repr of strings that need escaping is not modelled"
    else Except.ok ("'" ++ s ++ "'")
  | .nodeA (.int n) => Except.ok (toString n)
  | .nodeA (.bool b) => Except.ok (if b then "True" else "False")
  | .nodeA .pyNone => Except.ok "None"
  | .nodeA (.elem _ _ _ _) =>
    Except.error "default object repr of HtmlElement is address-dependent"
  | .seqA xs =>
    match pyReprArgList xs with
    | .error m => Except.error m
    | .ok ts => Except.ok ("[" ++ String.intercalate ", " ts ++ "]")

/-- Reprs of the members of a sequence, in order, first failure first. -/
def pyReprArgList : List Arg → Except String (List String)
  | [] => Except.ok []
  | a :: rest =>
    match pyReprArgV a with
    | .error m => Except.error m
    | .ok s =>
      match pyReprArgList rest with
      | .error m => Except.error m
      | .ok ts => Except.ok (s :: ts)
end

/-- Models `str(c)` on a raw `fragment` argument: atoms and elements as in
child rendering; a sequence argument is NOT flattened — `str` of the whole
sequence is taken (for a list, the bracketed join of member reprs). -/
def strOfArg : Arg → Except String String
  | .nodeA n => strOfNode n
  | .seqA xs =>
    match pyReprArgList xs with
    | .error m => Except.error m
    | .ok ts => Except.ok ("[" ++ String.intercalate ", " ts ++ "]")

/-- A sequence object is never the `None`/`False`/`True` singleton, so only
atomic arguments can be voided. -/
def isVoidedArg : Arg → Bool
  | .nodeA n => isVoided n
  | .seqA _ => false

/-- Models `_render_children` applied directly to the raw argument tuple of
`fragment` (the source reuses the same function for collapsed children lists
and for raw fragment arguments). -/
def renderChildrenArgs : List Arg → Except String String
  | [] => Except.ok ""
  | a :: rest =>
    if isVoidedArg a then renderChildrenArgs rest
    else
      match strOfArg a with
      | .error m => Except.error m
      | .ok s =>
        match renderChildrenArgs rest with
        | .error m => Except.error m
        | .ok r => Except.ok (s ++ r)

/-- Models `fragment(*args)`: exactly `_render_children(args)` — no
`collapse`, no wrapping tag, no doctype logic. -/
def fragment (args : List Arg) : Except String String := renderChildrenArgs args

/-- Reference view of an element for the aliasing model: `_attrs` is a
pointer into a heap of dicts rather than a value. Only the attribute dict
needs a heap: `_children` is rebound to a fresh list by every mutation in
the source (never mutated in place), while `__setattr__` mutates the dict
`_attrs` points to in place. -/
structure ElemRef where
  tag : String
  attrsRef : Nat
  is_empty : Bool

/-- Heap of attribute dicts. Cell 0 is the dict created once when `def
__init__(self, tag, attrs={}, children=[])` was evaluated: Python evaluates
a default argument a single time, so every element constructed without an
explicit `attrs` argument shares that one dict object. -/
def initHeap : List (List (String × AttrVal)) := [[]]

/-- Models `HtmlElement(tag)` as the factory calls it: the new element's
`_attrs` IS the shared default dict, cell 0. No heap cell is allocated. -/
def pyNewElement (tag : String) (h : List (List (String × AttrVal))) :
    ElemRef × List (List (String × AttrVal)) :=
  ({ tag := pyLower tag, attrsRef := 0,
     is_empty := EMPTY_ELEMENTS.contains tag }, h)

/-- Models `HtmlElement.__setattr__` for a name without a leading underscore
(leading-underscore names are routed to the instance's own fields instead):
`self._attrs[name] = value` mutates the pointed-to dict in place. -/
def pySetAttr (e : ElemRef) (k : String) (v : AttrVal)
    (h : List (List (String × AttrVal))) : List (List (String × AttrVal)) :=
  h.set e.attrsRef (dictInsert (h.getD e.attrsRef []) k v)

/-- Models `HtmlElement.__getattr__`: the current value under the key, or a
not-found `AttributeError` rendered as `none`. -/
def pyGetAttr (e : ElemRef) (k : String)
    (h : List (List (String × AttrVal))) : Option AttrVal :=
  (h.getD e.attrsRef []).lookup k

/-- Models the `if attrs:` block of `HtmlElement.__call__` in the aliasing
model: `self._attrs = {**self._attrs, **attrs}` rebinds `_attrs` to a fresh
dict (a fresh heap cell), leaving the previously shared dict untouched. -/
def pyExtendAttrs (e : ElemRef) (attrs : List (String × AttrVal))
    (h : List (List (String × AttrVal))) :
    ElemRef × List (List (String × AttrVal)) :=
  if attrs.isEmpty then (e, h)
  else ({ e with attrsRef := h.length },
        h ++ [dictMerge (h.getD e.attrsRef []) attrs])

/-! With all definitions in place, the development now turns to theorems:
first shared helper lemmas, then the claim theorems, then sanity-check
examples mirroring the repository's own test scenarios. -/

/-- Rendering an element is its pre-doctype markup, with the literal doctype
string prepended exactly when the stored `_tag` is `"html"`. -/
theorem strOfNode_elem (t : String) (a : List (String × AttrVal))
    (c : List Node) (ie : Bool) :
    strOfNode (.elem t a c ie) =
      match elemBase t a c ie with
      | .error m => Except.error m
      | .ok h => Except.ok (if t = "html" then "<!DOCTYPE html>" ++ h else h) := by
  simp only [strOfNode, elemBase]
  cases cleanName t <;> simp only
  cases serializeAttrs a <;> simp only
  cases renderChildren c <;> simp only

/-! Sanity checks: the concrete scenarios the repository's own test suite
exercises, evaluated in the embedding. -/

example : strOfNode (toNode (initElem "div")) = Except.ok "<div></div>" := rfl

example :
    tagCall "img" [] [("src", .str "foo")] = Except.ok
      { tag := "img", attrs := [("src", .str "foo")], children := [],
        is_empty := true } := rfl

example :
    strOfNode (.elem "img" [("src", .str "foo")] [] true) =
      Except.ok "<img src=\"foo\"/>" := rfl

example :
    strOfNode (.elem "div" [("foo-bar", .str "boz")] [] false) =
      Except.ok "<div foo-bar=\"boz\"></div>" := rfl

example : cleanName "foo_bar__" = Except.ok "foo-bar" := rfl

example :
    strOfNode (.elem "html" [] [.elem "body" [] [.str "hi"] false] false) =
      Except.ok "<!DOCTYPE html><html><body>hi</body></html>" := rfl

example :
    renderChildren [.str "hello", .pyNone, .str " ", .bool false, .str "world",
      .bool true, .str "!"] = Except.ok "hello world!" := rfl

example :
    fragment [.nodeA (.str "hello"), .nodeA .pyNone, .nodeA (.str " "),
      .nodeA (.bool false), .nodeA (.str "world"), .nodeA (.bool true),
      .nodeA (.str "!")] = Except.ok "hello world!" := rfl

example :
    elemCall (initElem "div") [.seqA [.nodeA (.int 0), .nodeA (.int 1)],
        .seqA [.nodeA (.int 0), .nodeA (.int 1), .nodeA (.int 2)]] [] =
      Except.ok (HtmlElement.mk "div" []
        [.int 0, .int 1, .int 0, .int 1, .int 2] false) := rfl

/-- C1, counterexample: the void-tag test uses the RAW tag string, not its
lower-cased canonical form. Creating an element with tag `"IMG"` — whose
canonical form `img` is in the fixed void set — yields `isVoid = false`; the
element accepts a child and renders with the open/close template, contrary
to the claim. -/
theorem c1_counterexample :
    (initElem "IMG").is_empty = false ∧
    pyLower "IMG" = "img" ∧
    EMPTY_ELEMENTS.contains "img" = true ∧
    elemCall (initElem "IMG") [.nodeA (.str "x")] [] =
      Except.ok (HtmlElement.mk "img" [] [.str "x"] false) ∧
    strOfNode (toNode (HtmlElement.mk "img" [] [.str "x"] false)) =
      Except.ok "<img>x</img>" :=
  ⟨rfl, rfl, rfl, rfl, rfl⟩

/-- C1, amended: the created element's `isVoid` flag is true iff the RAW tag
name as supplied (case-sensitively, before lower-casing) is in the fixed
void-tag set; when it is, the element rejects every attempt to add children
and renders with the self-closing template. A void tag name written in
another letter case yields a non-void element. -/
theorem c1_void_flag_uses_raw_tag (tag : String) :
    (initElem tag).is_empty = EMPTY_ELEMENTS.contains tag ∧
    (EMPTY_ELEMENTS.contains tag = true →
      ∀ (cs : List Arg) (attrs : List (String × AttrVal)), cs ≠ [] →
        elemCall (initElem tag) cs attrs =
          Except.error (voidMsg (pyLower tag))) ∧
    (tag ∈ EMPTY_ELEMENTS →
      strOfNode (toNode (initElem tag)) = Except.ok ("<" ++ tag ++ "/>")) := by
  refine ⟨rfl, ?_, ?_⟩
  · intro h cs attrs hcs
    have hcs' : cs.isEmpty = false := by
      cases cs with
      | nil => exact absurd rfl hcs
      | cons a rest => rfl
    have hm : tag ∈ EMPTY_ELEMENTS := by simpa using h
    simp [elemCall, elemCallSt, hcs', initElem, hm]
  · intro h
    simp only [EMPTY_ELEMENTS] at h
    fin_cases h <;> rfl

/-- C1, witness: instantiated at the lowercase void tag `"img"` (rejects a
child) and at `"br"` (renders self-closing). -/
theorem c1_witness :
    elemCall (initElem "img") [.nodeA (.str "x")] [] =
      Except.error (voidMsg (pyLower "img")) ∧
    strOfNode (toNode (initElem "br")) = Except.ok "<br/>" :=
  ⟨(c1_void_flag_uses_raw_tag "img").2.1 rfl [.nodeA (.str "x")] []
      (by simp),
   (c1_void_flag_uses_raw_tag "br").2.2 (by simp [EMPTY_ELEMENTS])⟩

/-- C2, counterexample: only the FIRST invocation (through the tag factory)
rejects mixing children with attributes. A subsequent extend invocation on
the element with one child argument and one attribute entry raises nothing:
it appends the child and merges the attribute. -/
theorem c2_counterexample :
    tagCall "div" [.nodeA (.str "hi")] [] =
      Except.ok (HtmlElement.mk "div" [] [.str "hi"] false) ∧
    elemCall (HtmlElement.mk "div" [] [.str "hi"] false)
        [.nodeA (.str "more")] [("id", .str "x")] =
      Except.ok
        (HtmlElement.mk "div" [("id", .str "x")] [.str "hi", .str "more"]
          false) :=
  ⟨rfl, rfl⟩

/-- C2, amended: supplying at least one child and at least one attribute in
the same invocation fails with the invalid-usage `ValueError` only when the
invocation goes through the tag factory (`HtmlTag.__call__`); an extend
invocation directly on an existing non-void element accepts children and
attributes together and succeeds. -/
theorem c2_invalid_usage_first_call_only (tag : String) (cs : List Arg)
    (attrs : List (String × AttrVal)) (hcs : cs ≠ []) (hattrs : attrs ≠ []) :
    tagCall tag cs attrs = Except.error bothMsg ∧
    ∀ e : HtmlElement, e.is_empty = false →
      elemCall e cs attrs =
        Except.ok
          { e with
            children := collapse (e.children.map Arg.nodeA ++ cs),
            attrs := dictMerge e.attrs attrs } := by
  have hcs' : cs.isEmpty = false := by
    cases cs with
    | nil => exact absurd rfl hcs
    | cons a rest => rfl
  have hattrs' : attrs.isEmpty = false := by
    cases attrs with
    | nil => exact absurd rfl hattrs
    | cons a rest => rfl
  constructor
  · simp [tagCall, hcs', hattrs']
  · intro e he
    simp [elemCall, elemCallSt, applyAttrs, hcs', hattrs', he]

/-- C2, witness: a concrete mixed invocation — rejected by the factory call,
accepted by a direct extend call on a non-void element. -/
theorem c2_witness :
    tagCall "div" [.nodeA (.str "hi")] [("id", .str "x")] =
      Except.error bothMsg ∧
    elemCall (HtmlElement.mk "div" [] [] false) [.nodeA (.str "hi")]
        [("id", .str "x")] =
      Except.ok
        { HtmlElement.mk "div" [] [] false with
          children := collapse
            ((HtmlElement.mk "div" [] [] false).children.map Arg.nodeA ++
              [.nodeA (.str "hi")]),
          attrs := dictMerge (HtmlElement.mk "div" [] [] false).attrs
            [("id", .str "x")] } :=
  ⟨(c2_invalid_usage_first_call_only "div" [.nodeA (.str "hi")]
      [("id", .str "x")] (by simp) (by simp)).1,
   (c2_invalid_usage_first_call_only "div" [.nodeA (.str "hi")]
      [("id", .str "x")] (by simp) (by simp)).2
      (HtmlElement.mk "div" [] [] false) rfl⟩

/-- Rendering the raw argument list of `fragment` coincides with children
rendering when every argument is an atomic node (no nested sequence). -/
theorem renderChildrenArgs_map_nodeA (ns : List Node) :
    renderChildrenArgs (ns.map Arg.nodeA) = renderChildren ns := by
  induction ns with
  | nil => rfl
  | cons c rest ih =>
    simp only [List.map_cons, renderChildrenArgs, renderChildren, strOfArg,
      isVoidedArg]
    rw [ih]

/-- C3, counterexample: `fragment` does NOT flatten its arguments. Applied
to one argument that is the list `["a", "b"]`, it returns the Python string
conversion of the list itself, `['a', 'b']`, whereas the claimed
flatten-then-render pipeline yields `ab`. -/
theorem c3_counterexample :
    fragment [.seqA [.nodeA (.str "a"), .nodeA (.str "b")]] =
      Except.ok "['a', 'b']" ∧
    renderChildren (collapse [.seqA [.nodeA (.str "a"), .nodeA (.str "b")]]) =
      Except.ok "ab" ∧
    ("['a', 'b']" : String) ≠ "ab" :=
  ⟨rfl, rfl, by decide⟩

/-- C3, amended: `fragment` iterates only the top level of its argument
sequence, drops the arguments that are the absent marker or a boolean
literal, and concatenates the string conversion of each remaining argument —
with no flattening: a nested sequence argument is string-converted
wholesale. For a flat argument sequence of nodes it therefore equals the
concatenation of their render/string-pass-through, but nesting is not
descended into. -/
theorem c3_fragment_unflattened :
    (∀ ns : List Node, fragment (ns.map Arg.nodeA) = renderChildren ns) ∧
    fragment [.seqA [.nodeA (.str "a"), .nodeA (.str "b")]] =
      Except.ok "['a', 'b']" :=
  ⟨renderChildrenArgs_map_nodeA, rfl⟩

/-- C4, counterexample: `rstrip("_")` removes EVERY trailing underscore, not
exactly one: `"foo__"` canonicalizes to `"foo"`, not the claimed `"foo-"`. -/
theorem c4_counterexample :
    cleanName "foo__" = Except.ok "foo" ∧ ("foo" : String) ≠ "foo-" :=
  ⟨rfl, by decide⟩

/-- C4, amended: canonicalization fails with the invalid-name error exactly
when the raw name begins with an underscore; otherwise it strips ALL
trailing underscores (appending a further trailing underscore never changes
the result) and then replaces each remaining underscore with a dash. -/
theorem c4_clean_name_strips_all_trailing (k : String) (c : Char)
    (l : List Char) (hc : c ≠ '_') :
    ((∃ m, cleanName k = Except.error m) ↔ startsUnd k = true) ∧
    cleanName (String.mk (c :: l ++ ['_'])) = cleanName (String.mk (c :: l)) ∧
    cleanName "a_b_c" = Except.ok "a-b-c" ∧
    cleanName "foo__" = Except.ok "foo" := by
  refine ⟨?_, ?_, rfl, rfl⟩
  · unfold cleanName
    by_cases h : startsUnd k = true
    · simp [h]
    · simp [h]
  · have h1 : startsUnd (String.mk (c :: l ++ ['_'])) = false := by
      simp [startsUnd, hc]
    have h2 : startsUnd (String.mk (c :: l)) = false := by
      simp [startsUnd, hc]
    have h3 : rstripUnd (String.mk (c :: l ++ ['_'])) =
        rstripUnd (String.mk (c :: l)) := by
      simp [rstripUnd, List.dropWhile]
    simp only [List.cons_append] at h1 h3
    simp [cleanName, h1, h2, h3]

/-- C4, witness: instantiated at `"_bad"` (leading underscore errs) and at
`"foo_"` versus `"foo"` (a further trailing underscore changes nothing). -/
theorem c4_witness :
    ((∃ m, cleanName "_bad" = Except.error m) ↔ startsUnd "_bad" = true) ∧
    cleanName (String.mk ['f', 'o', 'o', '_']) =
      cleanName (String.mk ['f', 'o', 'o']) :=
  ⟨(c4_clean_name_strips_all_trailing "_bad" 'f' ['o', 'o'] (by decide)).1,
   (c4_clean_name_strips_all_trailing "_bad" 'f' ['o', 'o'] (by decide)).2.1⟩

/-- C5, counterexample: the doctype test compares the stored lowercased raw
tag with `"html"` BEFORE name canonicalization, so an element created as
`"html_"` — whose canonical tag is exactly `html` — renders without the
doctype prefix, contrary to the claim. -/
theorem c5_counterexample :
    cleanName "html_" = Except.ok "html" ∧
    strOfNode (toNode (initElem "html_")) = Except.ok "<html></html>" ∧
    ("<html></html>" : String) ≠ "<!DOCTYPE html><html></html>" :=
  ⟨rfl, rfl, by decide⟩

/-- C5, amended: the rendered string is prefixed by `<!DOCTYPE html>`
exactly once iff the STORED tag — the lower-cased raw creation name, before
the trailing-underscore strip and dash replacement — is exactly `"html"`.
`"HTML"` therefore receives the prefix but `"html_"` does not. -/
theorem c5_doctype_iff_stored_tag_html (t : String)
    (a : List (String × AttrVal)) (c : List Node) (ie : Bool)
    (ht : t ≠ "html") :
    strOfNode (.elem t a c ie) = elemBase t a c ie ∧
    (∀ (a' : List (String × AttrVal)) (c' : List Node) (ie' : Bool),
      strOfNode (.elem "html" a' c' ie') =
        match elemBase "html" a' c' ie' with
        | .error m => Except.error m
        | .ok h => Except.ok ("<!DOCTYPE html>" ++ h)) ∧
    pyLower "HTML" = "html" ∧
    strOfNode (toNode (initElem "HTML")) =
      Except.ok "<!DOCTYPE html><html></html>" ∧
    strOfNode (toNode (initElem "html_")) = Except.ok "<html></html>" := by
  refine ⟨?_, ?_, rfl, rfl, rfl⟩
  · rw [strOfNode_elem]
    cases elemBase t a c ie <;> simp [ht]
  · intro a' c' ie'
    rw [strOfNode_elem]
    cases elemBase "html" a' c' ie' <;> simp

/-- C5, witness: instantiated at the non-`html` tag `"div"`. -/
theorem c5_witness :
    strOfNode (.elem "div" [] [] false) = elemBase "div" [] [] false :=
  (c5_doctype_iff_stored_tag_html "div" [] [] false (by decide)).1

/-- C6, counterexample: the attrs segment and its separating space are
chosen by the truthiness of the attribute DICT, not of the serialized
string. An element whose only attribute value is boolean false renders as
`<div ></div>` — with an empty attrs segment and a stray space — which is
not identical to the empty-attribute rendering `<div></div>`. -/
theorem c6_counterexample :
    tagCall "div" [] [("foo", AttrVal.bool false)] =
      Except.ok (HtmlElement.mk "div" [("foo", AttrVal.bool false)] [] false) ∧
    strOfNode
        (toNode (HtmlElement.mk "div" [("foo", AttrVal.bool false)] [] false)) =
      Except.ok "<div ></div>" ∧
    strOfNode (toNode (HtmlElement.mk "div" [] [] false)) =
      Except.ok "<div></div>" ∧
    ("<div ></div>" : String) ≠ "<div></div>" :=
  ⟨rfl, rfl, rfl, by decide⟩

/-- C6, amended: per attribute entry the claimed rules hold — boolean true
renders the bare canonicalized key, boolean false and the absent marker
contribute nothing to the serialized attrs string, and any other value
renders as `key="value"` verbatim — but an element whose every attribute
value is false/absent does NOT render identically to one with an empty
attribute map: the template still includes the attrs slot and its
separating space because the dict is non-empty, yielding e.g.
`<div ></div>`. -/
theorem c6_attr_value_rules (k ck s : String)
    (rest : List (String × AttrVal)) (ts : List String)
    (hk : cleanName k = Except.ok ck)
    (hr : serializeAttrsList rest = Except.ok ts) :
    (∀ (q : String) (r : List (String × AttrVal)),
      serializeAttrsList ((q, AttrVal.bool false) :: r) =
        serializeAttrsList r) ∧
    (∀ (q : String) (r : List (String × AttrVal)),
      serializeAttrsList ((q, AttrVal.none) :: r) = serializeAttrsList r) ∧
    serializeAttrsList ((k, AttrVal.bool true) :: rest) =
      Except.ok (ck :: ts) ∧
    serializeAttrsList ((k, AttrVal.str s) :: rest) =
      Except.ok ((ck ++ "=\"" ++ s ++ "\"") :: ts) ∧
    (∀ a : List (String × AttrVal),
      (∀ p ∈ a, p.2 = AttrVal.bool false ∨ p.2 = AttrVal.none) →
      serializeAttrs a = Except.ok "") ∧
    strOfNode (.elem "div" [("foo", AttrVal.bool false)] [] false) =
      Except.ok "<div ></div>" := by
  refine ⟨fun q r => rfl, fun q r => rfl, ?_, ?_, ?_, rfl⟩
  · simp [serializeAttrsList, hk, hr]
  · simp [serializeAttrsList, pyStrAttr, hk, hr]
  · intro a ha
    have hnil : serializeAttrsList a = Except.ok [] := by
      induction a with
      | nil => rfl
      | cons p r ih =>
        rcases ha p (by simp) with h | h
        · obtain ⟨q, v⟩ := p
          simp only at h
          subst h
          exact ih (fun p hp => ha p (by simp [hp]))
        · obtain ⟨q, v⟩ := p
          simp only at h
          subst h
          exact ih (fun p hp => ha p (by simp [hp]))
    simp [serializeAttrs, hnil]
    rfl

/-- C6, witness: instantiated at key `"k"` with a true-valued, a
string-valued and an absent-valued entry. -/
theorem c6_witness :
    serializeAttrsList [("k", AttrVal.bool true), ("z", AttrVal.none)] =
      Except.ok ["k"] ∧
    serializeAttrsList [("k", AttrVal.str "v"), ("z", AttrVal.none)] =
      Except.ok ["k=\"v\""] :=
  ⟨(c6_attr_value_rules "k" "k" "v" [("z", AttrVal.none)] [] rfl rfl).2.2.1,
   (c6_attr_value_rules "k" "k" "v" [("z", AttrVal.none)] []
      rfl rfl).2.2.2.1⟩

/-- C7, code bug: the default argument `attrs={}` of `HtmlElement.__init__`
is evaluated once, so every element constructed without explicit attrs
shares ONE dict object, and `__setattr__` mutates it in place. A fresh,
never-extended element created after `a = div(); a.foo = "x"` answers
`"x"` for `foo` instead of failing with a not-found error. -/
theorem c7_shared_default_attrs :
    pyGetAttr (pyNewElement "div" initHeap).1 "foo"
        (pyNewElement "div" initHeap).2 = Option.none ∧
    (let p1 := pyNewElement "div" initHeap
     let h1 := pySetAttr p1.1 "foo" (AttrVal.str "x") p1.2
     let p2 := pyNewElement "div" h1
     pyGetAttr p2.1 "foo" p2.2 = Option.some (AttrVal.str "x")) :=
  ⟨rfl, rfl⟩

/-- C8: a failing extend invocation on an element (the only failure an
element-level call can raise is the void-element violation) leaves the
element's attribute map and child sequence exactly as they were: the raise
happens before either assignment statement runs. -/
theorem c8_failing_extend_is_pure (e : HtmlElement) (cs : List Arg)
    (attrs : List (String × AttrVal)) (m : String)
    (h : (elemCallSt e cs attrs).1 = Except.error m) :
    (elemCallSt e cs attrs).2 = e := by
  unfold elemCallSt at h ⊢
  by_cases hcs : cs.isEmpty = true
  · simp [hcs] at h
  · by_cases hie : e.is_empty = true
    · simp [hcs, hie]
    · simp [hcs, hie] at h

/-- C8, witness: an `img` element given a child errs and is unchanged. -/
theorem c8_witness :
    (elemCallSt (initElem "img") [.nodeA (.str "x")] []).1 =
      Except.error (voidMsg "img") ∧
    (elemCallSt (initElem "img") [.nodeA (.str "x")] []).2 = initElem "img" :=
  ⟨rfl, c8_failing_extend_is_pure (initElem "img") [.nodeA (.str "x")] []
      (voidMsg "img") rfl⟩

/-- Atomic arguments flatten to themselves: strings and elements are never
iterated into, booleans and the absent marker pass through unchanged. -/
theorem walk_nodeA (n : Node) : walk (.nodeA n) = [n] := by
  cases n <;> rfl

/-- Flattening distributes over concatenation of argument lists. -/
theorem walkList_append (xs ys : List Arg) :
    walkList (xs ++ ys) = walkList xs ++ walkList ys := by
  induction xs with
  | nil => rfl
  | cons a rest ih => simp [walkList, ih]

/-- Re-flattening an already-flat children list is the identity. -/
theorem walkList_map_nodeA (ns : List Node) :
    walkList (ns.map Arg.nodeA) = ns := by
  induction ns with
  | nil => rfl
  | cons n rest ih => simp [walkList, walk_nodeA, ih]

/-- C9: the flattener yields leaves in depth-first left-to-right order —
empty input gives the empty sequence, atomic leaves (strings, elements,
ints, booleans, the absent marker) map to themselves, a sequence flattens
to the concatenation of its members' flattenings — and a successful extend
call appends the flattened new arguments after the existing children,
preserving both relative orders and leaving attrs and tag untouched. -/
theorem c9_flatten_dfs (e : HtmlElement) (cs : List Arg) (e' : HtmlElement)
    (he : e.is_empty = false) (hcall : elemCall e cs [] = Except.ok e') :
    walkList [] = [] ∧
    (∀ n : Node, walk (.nodeA n) = [n]) ∧
    (∀ xs : List Arg, walk (.seqA xs) = walkList xs) ∧
    (∀ xs ys : List Arg, walkList (xs ++ ys) = walkList xs ++ walkList ys) ∧
    (e'.children = e.children ++ walkList cs ∧ e'.attrs = e.attrs ∧
      e'.tag = e.tag) := by
  refine ⟨rfl, walk_nodeA, fun xs => rfl, walkList_append, ?_⟩
  cases cs with
  | nil =>
    simp [elemCall, elemCallSt, applyAttrs] at hcall
    subst hcall
    simp [walkList]
  | cons a rest =>
    simp [elemCall, elemCallSt, applyAttrs, he] at hcall
    subst hcall
    simp [collapse, walkList_append, walkList_map_nodeA, walkList]

/-- C9, witness: a one-element children list extended with one nested
sequence argument. -/
theorem c9_witness :
    (HtmlElement.mk "div" [] [.str "a", .str "b"] false).children =
      (HtmlElement.mk "div" [] [.str "a"] false).children ++
        walkList [.seqA [.nodeA (.str "b")]] ∧
    (HtmlElement.mk "div" [] [.str "a", .str "b"] false).attrs =
      (HtmlElement.mk "div" [] [.str "a"] false).attrs ∧
    (HtmlElement.mk "div" [] [.str "a", .str "b"] false).tag =
      (HtmlElement.mk "div" [] [.str "a"] false).tag :=
  (c9_flatten_dfs (HtmlElement.mk "div" [] [.str "a"] false)
    [.seqA [.nodeA (.str "b")]]
    (HtmlElement.mk "div" [] [.str "a", .str "b"] false) rfl rfl).2.2.2.2

/-- C10: placeholder handling is by identity with the `None`/`True`/`False`
singletons, never by truthiness: integer children 0 and 1 render as "0" and
"1", integer attribute values 1 and 0 render as `k="1"` / `k="0"` (no
bare-key shorthand, no omission), every integer child renders as its
standard string conversion, and in general a non-placeholder child renders
exactly as its `str` conversion. -/
theorem c10_placeholders_by_identity (c : Node) (n : Int)
    (hc : isVoided c = false) :
    renderChildren [.int 0] = Except.ok "0" ∧
    renderChildren [.int 1] = Except.ok "1" ∧
    serializeAttrs [("k", AttrVal.int 1)] = Except.ok "k=\"1\"" ∧
    serializeAttrs [("k", AttrVal.int 0)] = Except.ok "k=\"0\"" ∧
    renderChildren [.int n] = Except.ok (toString n) ∧
    renderChildren [c] = strOfNode c := by
  refine ⟨rfl, rfl, rfl, rfl, ?_, ?_⟩
  · simp [renderChildren, strOfNode, isVoided]
  · simp only [renderChildren, hc, Bool.false_eq_true, if_neg]
    cases h : strOfNode c <;> simp [renderChildren]

/-- C10, witness: instantiated at the child `"w"` and the integer 7. -/
theorem c10_witness :
    renderChildren [.int 7] = Except.ok (toString (7 : Int)) ∧
    renderChildren [.str "w"] = strOfNode (.str "w") :=
  ⟨(c10_placeholders_by_identity (.str "w") 7 rfl).2.2.2.2.1,
   (c10_placeholders_by_identity (.str "w") 7 rfl).2.2.2.2.2⟩

end Htbuilder
